import Mathlib

/-!
Shallow embedding of the GoblinTerminal command-execution and quest-validation
engine (Go sources: `pkg/docker/manager.go`, the `ui` model file, and the
`internal/game` quest types), together with proofs about the spec's claims.

Container invocations are external subprocess calls; they are modelled by an
oracle mapping the exact argument vector the Go code builds (everything after
the runtime binary name) to a result, or — where reconciliation mutates the
container — by a small explicit container-state interpreter.
-/

namespace GoblinTerminal

/-- Result of one subprocess invocation of the container runtime:
captured stdout, captured stderr, whether `cmd.Run()` returned nil,
and the text of the raw Go error when it did not (used where the Go code
falls back to the underlying error). -/
structure ExecResult where
  stdout : String
  stderr : String
  success : Bool
  errMsg : String
  deriving Repr, DecidableEq

/-- A read-only oracle for container invocations: maps the argument vector
(passed to the runtime binary) to the observed result. -/
def Exec : Type := List String → ExecResult

/-!
Go `strings` functions, modelled by structural recursion over the character
list so that every definition evaluates by kernel reduction. The commands in
play are ASCII, where Go's byte indexing and Unicode handling coincide with
per-character operations.
-/

/-- Go `unicode.IsSpace` restricted to the ASCII whitespace characters. -/
def goIsSpace (c : Char) : Bool :=
  c == ' ' || c == '\t' || c == '\n' || c == '\x0b' || c == '\x0c' || c == '\r'

/-- Go `strings.TrimSpace`: drop leading and trailing whitespace. -/
def goTrimSpace (s : String) : String :=
  ⟨((s.data.dropWhile goIsSpace).reverse.dropWhile goIsSpace).reverse⟩

/-- Go `strings.HasPrefix s pat`. -/
def goStartsWith (s pat : String) : Bool :=
  pat.data.isPrefixOf s.data

/-- Go slicing `s[n:]` (ASCII). -/
def goDrop (s : String) (n : Nat) : String :=
  ⟨s.data.drop n⟩

/-- Occurrence of `pat` anywhere in the list (helper for `goContains`). -/
def listContains (pat : List Char) : List Char → Bool
  | [] => pat.isEmpty
  | c :: rest => pat.isPrefixOf (c :: rest) || listContains pat rest

/-- Go `strings.Contains s pat`. -/
def goContains (s pat : String) : Bool :=
  listContains pat.data s.data

/-- Go `strings.TrimSuffix(s, "/")`: removes one trailing `/` if present. -/
def goTrimSuffixSlash (s : String) : String :=
  match s.data.getLast? with
  | some '/' => ⟨s.data.dropLast⟩
  | _ => s

/-- Helper for `goSplitNewline`: Go `strings.Split(s, "\x5cn")` on the character
list (the code only ever splits on a newline). -/
def splitLines : List Char → List (List Char)
  | [] => [[]]
  | c :: rest =>
    let r := splitLines rest
    if c == '\n' then [] :: r
    else
      match r with
      | [] => [[c]]
      | h :: t => (c :: h) :: t

/-- Go `strings.Split(s, "\x5cn")`. -/
def goSplitNewline (s : String) : List String :=
  (splitLines s.data).map fun l => ⟨l⟩

/-- Embedding of `docker.Manager` (manager.go): lifecycle configuration plus the one piece
of emulated shell state, the tracked working directory. -/
structure Manager where
  ImageName : String
  ContainerName : String
  GatewayName : String
  NetworkName : String
  Runtime : String
  CurrentDir : String
  deriving Repr, DecidableEq

/-- Embedding of `Manager.ExecuteCommand` (manager.go lines 147–220), with the subprocess
modelled by the oracle `exec`. Returns ((output, error?), updated manager).
The 5-second kill timer on the normal path is a real-time mechanism outside
this embedding; the value-level behaviour (stdout on success, stderr or the
raw error on failure) is translated verbatim. -/
def ExecuteCommand (m : Manager) (exec : Exec) (command : String) :
    (String × Option String) × Manager :=
  let trimmedCmd := goTrimSpace command
  if goStartsWith trimmedCmd "cd " || trimmedCmd == "cd" then
    let target := if trimmedCmd.data.length > 3 then goTrimSpace (goDrop trimmedCmd 3)
                  else "/home/player"
    let fullCmd := "cd " ++ m.CurrentDir ++ " && cd " ++ target ++ " && pwd"
    let r := exec ["exec", m.ContainerName, "bash", "-c", fullCmd]
    if r.success then
      let newDir := goTrimSpace r.stdout
      let m' := if newDir != "" then { m with CurrentDir := newDir } else m
      (("", none), m')
    else
      let errStr := if r.stderr == "" then "No such file or directory" else r.stderr
      (("", some errStr), m)
  else
    let r := exec ["exec", "-w", m.CurrentDir, m.ContainerName, "bash", "-c", command]
    if r.success then
      ((r.stdout, none), m)
    else
      if r.stderr != "" then (("", some r.stderr), m)
      else (("", some r.errMsg), m)

/-- Embedding of `Manager.ExecuteValidation` (manager.go lines 224–243): runs the probe
with the working directory pinned to `/home/player`; both the success and the
failure branch return the captured stdout with a nil error. -/
def ExecuteValidation (m : Manager) (exec : Exec) (command : String) :
    String × Option String :=
  let r := exec ["exec", "-w", "/home/player", m.ContainerName, "bash", "-c", command]
  (r.stdout, none)

/-- Embedding of `game.WinConditionType` (types file): the fixed vocabulary of
win-condition kinds. Constructor names follow the Go constant names. -/
inductive WinConditionType where
  | DirExists
  | FileExists
  | FileContains
  | CommandOut
  | UserOutputMatch
  | UserOutputContains
  | CurrentDirMatch
  | Custom
  deriving Repr, DecidableEq

/-- Embedding of `game.WinCondition`: the per-quest completion criterion. The Go field
`Type` is spelled `type` here because `Type` is reserved in Lean. -/
structure WinCondition where
  type : WinConditionType
  Target : String
  Content : String
  Command : String
  Expected : String
  deriving Repr, DecidableEq

/-- Embedding of `game.Quest`: one level/objective. -/
structure Quest where
  ID : Int
  Title : String
  IntroText : String
  Objective : String
  WinCondition : WinCondition
  SuccessText : String
  XPReward : Int
  SetupCommands : List String
  deriving Repr, DecidableEq

instance : Inhabited Quest :=
  ⟨⟨0, "", "", "", ⟨WinConditionType.Custom, "", "", "", ""⟩, "", 0, []⟩⟩

/-- Embedding of `ui.Model`: the slice of the bubbletea model that the engine claims are
about (quest list, manager, quest cursor, last captured user output, output
transcript, goblin text). Presentation-only fields (input buffer, history,
viewport sizes) are omitted; `savedQuestId` records the value most recently
written by `game.SaveState` (persistence modelled as a field). -/
structure Model where
  quests : List Quest
  manager : Manager
  currentQuestIdx : Int
  lastOutput : String
  output : List String
  glitchText : String
  savedQuestId : Option Int
  deriving Repr, DecidableEq

/-- Go slice indexing `quests[i]` for an in-range index (the Go code panics
out of range; the embedding totalises with a default quest, reached only
outside the guards the code itself establishes). -/
def getQuest (qs : List Quest) (i : Int) : Quest :=
  qs.getD i.toNat default

/-- Embedding of `ui.NewModel` (model file lines 43–66): constructs the model, clamping
the starting quest id into range (negative ↦ 0, ≥ len ↦ len - 1). -/
def NewModel (quests : List Quest) (manager : Manager) (startQuestID : Int) :
    Model :=
  let initialText := if quests.length > 0 then "Loading content..."
                     else "Initializing Goblin Terminal..."
  let s1 := if startQuestID < 0 then 0 else startQuestID
  let s2 := if s1 ≥ (quests.length : Int) then (quests.length : Int) - 1 else s1
  { quests := quests
    manager := manager
    currentQuestIdx := s2
    lastOutput := ""
    output := [initialText]
    glitchText := "<'.'> ..."
    savedQuestId := none }

/-- Embedding of `ui.questCheckMsg`: verdict message carrying the index captured when the
check was dispatched. -/
structure QuestCheckMsg where
  idx : Int
  passed : Bool
  deriving Repr, DecidableEq

/-- Embedding of `ui.commandResultMsg`: completion message of one user command. -/
structure CommandResultMsg where
  output : String
  err : Option String
  deriving Repr, DecidableEq

/-- Embedding of `ui.Model.checkWinCondition` (model file lines 300–383): dispatch on the
current quest's win-condition kind. Returns `none` when the cursor is past
the last quest (the Go code returns a nil command), otherwise the
`questCheckMsg` the dispatched closure produces. Container probes go through
`ExecuteValidation`. -/
def checkWinCondition (m : Model) (exec : Exec) : Option QuestCheckMsg :=
  if m.currentQuestIdx ≥ (m.quests.length : Int) then none
  else
    let q := getQuest m.quests m.currentQuestIdx
    let checkPassed :=
      match q.WinCondition.type with
      | WinConditionType.CommandOut =>
          let out := (ExecuteValidation m.manager exec q.WinCondition.Command).1
          goTrimSpace out == q.WinCondition.Expected
      | WinConditionType.DirExists =>
          let cmd := "test -d " ++ q.WinCondition.Target ++ " && echo yes"
          let out := (ExecuteValidation m.manager exec cmd).1
          goTrimSpace out == "yes"
      | WinConditionType.FileExists =>
          let cmd := "test -f " ++ q.WinCondition.Target ++ " && echo yes"
          let out := (ExecuteValidation m.manager exec cmd).1
          goTrimSpace out == "yes"
      | WinConditionType.FileContains =>
          let cmd := "grep -q \x22" ++ q.WinCondition.Content ++ "\x22 "
                     ++ q.WinCondition.Target ++ " && echo yes"
          let out := (ExecuteValidation m.manager exec cmd).1
          goTrimSpace out == "yes"
      | WinConditionType.UserOutputMatch =>
          goTrimSpace m.lastOutput == goTrimSpace q.WinCondition.Expected
      | WinConditionType.UserOutputContains =>
          goContains m.lastOutput q.WinCondition.Expected
      | WinConditionType.CurrentDirMatch =>
          let targetDir := q.WinCondition.Target
          let targetDir := if ¬ goStartsWith targetDir "/"
                           then "/home/player/" ++ targetDir else targetDir
          let targetDir := goTrimSuffixSlash targetDir
          let currentDir := goTrimSuffixSlash m.manager.CurrentDir
          currentDir == targetDir
      | WinConditionType.Custom => false
    some ⟨m.currentQuestIdx, checkPassed⟩

/-- The `commandResultMsg` branch of `ui.Model.Update` (model file lines
117–132): append the command's output (or the error text) to the transcript,
dropping a trailing empty line produced by the split; record `lastOutput`
only on success. -/
def updateCommandResult (m : Model) (msg : CommandResultMsg) : Model :=
  match msg.err with
  | some e => { m with output := m.output ++ ["Error: " ++ e] }
  | none =>
      let lines := goSplitNewline msg.output
      let lines := if lines.length > 0 ∧ lines.getLast? = some ""
                   then lines.dropLast else lines
      { m with output := m.output ++ lines, lastOutput := msg.output }

/-- The full step the `commandResultMsg` handler performs: update the model,
then dispatch `checkWinCondition` on the updated model (the handler returns
`m, m.checkWinCondition()` on both the success and the error path). -/
def commandResultStep (m : Model) (msg : CommandResultMsg) (exec : Exec) :
    Model × Option QuestCheckMsg :=
  let m' := updateCommandResult m msg
  (m', checkWinCondition m' exec)

/-- The `questCheckMsg` branch of `ui.Model.Update` (model file lines
230–268): on a passing verdict append the completion banner and success text
(terminal styling omitted), persist `currentQuestId := msg.idx + 1`, and
advance the cursor to `msg.idx + 1`, entering either the next quest or the
completed state; on a failing verdict the model is unchanged. The setup
commands dispatched for the next quest act only on the container and are not
part of the model state. -/
def updateQuestCheck (m : Model) (msg : QuestCheckMsg) : Model :=
  if msg.passed then
    let completedQuest := getQuest m.quests msg.idx
    let out1 := m.output ++ [""]
      ++ [">>> QUEST COMPLETE! +" ++ toString completedQuest.XPReward ++ " XP <<<"]
      ++ goSplitNewline completedQuest.SuccessText ++ [""]
    let nextIdx := msg.idx + 1
    if nextIdx < (m.quests.length : Int) then
      let q := getQuest m.quests nextIdx
      { m with
        output := out1 ++ ["--- QUEST " ++ toString q.ID ++ ": " ++ q.Title ++ " ---"]
        glitchText := "(Next: " ++ q.Title ++ ")\n" ++ q.IntroText
        currentQuestIdx := nextIdx
        savedQuestId := some nextIdx }
    else
      { m with
        output := out1
        glitchText := "You did it! All systems normal. <^.^>"
        currentQuestIdx := nextIdx
        savedQuestId := some nextIdx }
  else m

/-- A stateful container-invocation oracle: reconciliation fixes mutate the
container, so its invocations thread an abstract container state `σ`. -/
def ExecS (σ : Type) : Type := σ → List String → ExecResult × σ

/-- Embedding of `Manager.RunAsRoot` (manager.go lines 348–355), stateful form: executes
`bash -c command` as uid 0; on failure returns the raw error text followed by
the combined output (`fmt.Errorf("%v: %s", err, out)`). -/
def RunAsRootS {σ : Type} (exec : ExecS σ) (m : Manager) (command : String)
    (s : σ) : Option String × σ :=
  let (r, s') := exec s ["exec", "-u", "0", m.ContainerName, "bash", "-c", command]
  if r.success then (none, s')
  else (some (r.errMsg ++ ": " ++ r.stdout ++ r.stderr), s')

/-- Embedding of `Manager.ExecuteValidation`, stateful form (same code as
`ExecuteValidation`: captured stdout, always a nil error). -/
def ExecuteValidationS {σ : Type} (exec : ExecS σ) (m : Manager)
    (command : String) (s : σ) : (String × Option String) × σ :=
  let (r, s') := exec s ["exec", "-w", "/home/player", m.ContainerName, "bash", "-c", command]
  ((r.stdout, none), s')

/-- Embedding of `Manager.RestoreEnvironment` (manager.go lines 287–345): the fixed rule
table, checked in source order (quest 10 user, quest 16 sudo group, quest 11
ownership, quest 12 permissions). Besides the error and the final container
state, the embedding returns the trace of commands passed to `RunAsRoot`, in
order, so that theorems can speak about which side-effecting commands a run
issues. A failing `useradd`/`usermod` aborts with an error exactly as the Go
early returns do; the `chown`/`chmod` results are discarded (`_ =`). -/
def RestoreEnvironment {σ : Type} (exec : ExecS σ) (m : Manager)
    (questID : Int) (s : σ) : Option String × List String × σ :=
  -- Quest 10: glitch user must exist past quest 10
  let step10 : Option String × List String × σ :=
    if questID > 10 then
      let (e, s1) := RunAsRootS exec m "id glitch" s
      match e with
      | some _ =>
        let (e2, s2) := RunAsRootS exec m "useradd glitch" s1
        match e2 with
        | some msg => (some ("failed to restore glitch user: " ++ msg),
                       ["id glitch", "useradd glitch"], s2)
        | none => (none, ["id glitch", "useradd glitch"], s2)
      | none => (none, ["id glitch"], s1)
    else (none, [], s)
  match step10 with
  | (some msg, t10, s10) => (some msg, t10, s10)
  | (none, t10, s10) =>
    -- Quest 16: glitch must be in the sudo group past quest 16
    let step16 : Option String × List String × σ :=
      if questID > 16 then
        let (ov, s1) := ExecuteValidationS exec m "groups glitch" s10
        if ¬ goContains ov.1 "sudo" then
          let (e2, s2) := RunAsRootS exec m "usermod -aG sudo glitch" s1
          match e2 with
          | some msg => (some ("failed to restore glitch sudo access: " ++ msg),
                         ["usermod -aG sudo glitch"], s2)
          | none => (none, ["usermod -aG sudo glitch"], s2)
        else (none, [], s1)
      else (none, [], s10)
    match step16 with
    | (some msg, t16, s16) => (some msg, t10 ++ t16, s16)
    | (none, t16, s16) =>
      -- Quest 11: ownership of .safe_house past quest 11
      let step11 : List String × σ :=
        if questID > 11 then
          let (rv, s1) := ExecuteValidationS exec m "test -d /home/player/.safe_house" s16
          if rv.2 = none then
            let (_, s2) := RunAsRootS exec m "chown glitch /home/player/.safe_house" s1
            (["chown glitch /home/player/.safe_house"], s2)
          else ([], s1)
        else ([], s16)
      let (t11, s11) := step11
      -- Quest 12: permissions of .safe_house past quest 12
      let step12 : List String × σ :=
        if questID > 12 then
          let (rv, s1) := ExecuteValidationS exec m "test -d /home/player/.safe_house" s11
          if rv.2 = none then
            let (_, s2) := RunAsRootS exec m "chmod 700 /home/player/.safe_house" s1
            (["chmod 700 /home/player/.safe_house"], s2)
          else ([], s1)
        else ([], s11)
      let (t12, s12) := step12
      (none, t10 ++ t16 ++ t11 ++ t12, s12)

/-- Abstract state of the player container, covering exactly the facts the
reconciliation probes and fixes touch: whether the `glitch` user exists,
whether it is in the `sudo` group, and existence/owner/permission-bits of
`/home/player/.safe_house`. This is a model of the external container, not of
repository code. -/
structure ContainerState where
  glitchExists : Bool
  glitchInSudo : Bool
  safeHouseExists : Bool
  safeHouseOwner : String
  safeHousePerm : String
  deriving Repr, DecidableEq

/-- Interpretation of the root-context commands reconciliation issues, on the
abstract container state: `useradd` fails when the user already exists,
`usermod`/`chown` fail when the user is missing, `chown`/`chmod` fail when
the directory is missing, and the successful fixes set the corresponding
fact. -/
def runRootCmd (s : ContainerState) (c : String) : ExecResult × ContainerState :=
  if c = "id glitch" then
    (if s.glitchExists then ⟨"uid=1001(glitch) gid=1001(glitch)\n", "", true, ""⟩
     else ⟨"", "id: glitch: no such user\n", false, "exit status 1"⟩, s)
  else if c = "useradd glitch" then
    if s.glitchExists then
      (⟨"", "useradd: user glitch already exists\n", false, "exit status 9"⟩, s)
    else (⟨"", "", true, ""⟩, { s with glitchExists := true })
  else if c = "usermod -aG sudo glitch" then
    if s.glitchExists then (⟨"", "", true, ""⟩, { s with glitchInSudo := true })
    else (⟨"", "usermod: user glitch does not exist\n", false, "exit status 6"⟩, s)
  else if c = "chown glitch /home/player/.safe_house" then
    if s.safeHouseExists ∧ s.glitchExists then
      (⟨"", "", true, ""⟩, { s with safeHouseOwner := "glitch" })
    else (⟨"", "chown: cannot access\n", false, "exit status 1"⟩, s)
  else if c = "chmod 700 /home/player/.safe_house" then
    if s.safeHouseExists then
      (⟨"", "", true, ""⟩, { s with safeHousePerm := "700" })
    else (⟨"", "chmod: cannot access\n", false, "exit status 1"⟩, s)
  else (⟨"", "", false, "unknown command"⟩, s)

/-- Interpretation of the validation-context probes reconciliation issues, on
the abstract container state; probes never mutate the state. -/
def runValidationCmd (s : ContainerState) (c : String) :
    ExecResult × ContainerState :=
  if c = "groups glitch" then
    if s.glitchExists then
      (if s.glitchInSudo then ⟨"glitch : glitch sudo\n", "", true, ""⟩
       else ⟨"glitch : glitch\n", "", true, ""⟩, s)
    else (⟨"", "groups: glitch: no such user\n", false, "exit status 1"⟩, s)
  else if c = "test -d /home/player/.safe_house" then
    if s.safeHouseExists then (⟨"", "", true, ""⟩, s)
    else (⟨"", "", false, "exit status 1"⟩, s)
  else (⟨"", "", false, "unknown command"⟩, s)

/-- The stateful oracle tying the two interpretations to the argument-vector
shapes `RunAsRoot` and `ExecuteValidation` build. -/
def containerExec : ExecS ContainerState := fun s args =>
  match args with
  | ["exec", "-u", "0", _, "bash", "-c", c] => runRootCmd s c
  | ["exec", "-w", "/home/player", _, "bash", "-c", c] => runValidationCmd s c
  | _ => (⟨"", "", false, "unknown invocation"⟩, s)

/-- The argument vector of the directory-change probe `ExecuteCommand`
builds: `cd <tracked> && cd <target> && pwd`, run in the player container. -/
def cdProbeArgs (m : Manager) (target : String) : List String :=
  ["exec", m.ContainerName, "bash", "-c",
   "cd " ++ m.CurrentDir ++ " && cd " ++ target ++ " && pwd"]

/-- The target of a directory-change command as `ExecuteCommand` computes
it: the text after `cd `, trimmed; a bare `cd` defaults to the player's
home. -/
def cdTarget (command : String) : String :=
  if (goTrimSpace command).data.length > 3
  then goTrimSpace (goDrop (goTrimSpace command) 3)
  else "/home/player"

/-- Trailing-separator stripping as the spec words it: remove all trailing
`/` characters. -/
def stripTrailingSlashes (s : String) : String :=
  ⟨(s.data.reverse.dropWhile (· == '/')).reverse⟩

/-- CurrentDirMatches evaluation as the spec words it (a comparison
definition written from the spec's sentence, for the refinement claim about
this dispatch arm — not translated from the code): normalize the target to
an absolute path against the player's home, strip all trailing separators
from both sides, pass iff equal to the similarly stripped tracked
directory. -/
def specCurrentDirMatches (target curDir : String) : Bool :=
  let t := if ¬ goStartsWith target "/" then "/home/player/" ++ target else target
  stripTrailingSlashes t == stripTrailingSlashes curDir

/-- The manager configuration `main.go` constructs (docker runtime,
image `goblin-terminal:latest`, container `goblin-game`), used as the
concrete fixture of witnesses and counterexamples. -/
def mgr0 : Manager :=
  ⟨"goblin-terminal:latest", "goblin-game", "goblin-game_gateway",
   "goblin_net", "docker", "/home/player"⟩

/-- Embedding of `ExecuteCommand` on a directory-change command, reduced to its probe
result (shared shape lemma for the directory-change theorems). -/
theorem executeCommand_cd_eq (m : Manager) (exec : Exec) (command : String)
    (hcd : (goStartsWith (goTrimSpace command) "cd "
            || goTrimSpace command == "cd") = true) :
    ExecuteCommand m exec command =
      (let r := exec (cdProbeArgs m (cdTarget command))
       if r.success then
         (("", none),
          if goTrimSpace r.stdout != ""
          then { m with CurrentDir := goTrimSpace r.stdout } else m)
       else
         (("", some (if r.stderr == "" then "No such file or directory"
                     else r.stderr)), m)) := by
  simp only [ExecuteCommand]
  rw [if_pos hcd]
  rfl

/-- Claim C1: For every directory-change command executed by the Session
Executor from tracked directory `D`: if the combined probe
(`cd D && cd target && pwd`) succeeds (and, as a successful `pwd` does,
prints a nonempty path), the tracked working directory is replaced by the
probe's printed path (trimmed) and the returned output is empty; if the
probe fails, the tracked directory stays exactly `D`, the output is empty
and the surfaced error is the captured stderr, falling back to the generic
`No such file or directory` when stderr is empty. -/
theorem executeCommand_cd_correct (m : Manager) (exec : Exec) (command : String)
    (r : ExecResult)
    (hcd : goStartsWith (goTrimSpace command) "cd " = true
           ∨ goTrimSpace command = "cd")
    (hr : exec (cdProbeArgs m (cdTarget command)) = r) :
    (r.success = true → goTrimSpace r.stdout ≠ "" →
      ExecuteCommand m exec command
        = (("", none), { m with CurrentDir := goTrimSpace r.stdout })) ∧
    (r.success = false →
      ExecuteCommand m exec command
        = (("", some (if r.stderr == "" then "No such file or directory"
                      else r.stderr)), m)) := by
  have hcond : (goStartsWith (goTrimSpace command) "cd "
                || goTrimSpace command == "cd") = true := by
    rcases hcd with h | h
    · simp [h]
    · simp [h]
  have heq := executeCommand_cd_eq m exec command hcond
  rw [hr] at heq
  constructor
  · intro hs hne
    rw [heq]
    simp only [hs, if_true]
    simp [hne]
  · intro hs
    rw [heq]
    simp [hs]

/-- Witness for C1: a `cd hut` from `/home/player` whose probe succeeds
printing `/home/player/hut` retracks the directory there with empty
output. -/
theorem executeCommand_cd_correct_witness :
    goStartsWith (goTrimSpace "cd hut") "cd " = true ∧
    ExecuteCommand mgr0 (fun _ => ⟨"/home/player/hut\n", "", true, ""⟩) "cd hut"
      = (("", none), { mgr0 with CurrentDir := "/home/player/hut" }) := by
  refine ⟨by decide, ?_⟩
  have h := executeCommand_cd_correct mgr0
      (fun _ => ⟨"/home/player/hut\n", "", true, ""⟩) "cd hut"
      ⟨"/home/player/hut\n", "", true, ""⟩ (Or.inl (by decide)) rfl
  have h2 := h.1 rfl (by decide)
  exact h2.trans (by decide)

/-- Claim C10: A bare `cd` is treated as a directory change whose target is
the player's home `/home/player`: the probe is
`cd <tracked> && cd /home/player && pwd`, and on success the tracked
directory becomes the probe's printed path with empty output. -/
theorem executeCommand_bare_cd (m : Manager) (exec : Exec) (r : ExecResult)
    (hr : exec (cdProbeArgs m "/home/player") = r)
    (hs : r.success = true) (hne : goTrimSpace r.stdout ≠ "") :
    cdTarget "cd" = "/home/player" ∧
    ExecuteCommand m exec "cd"
      = (("", none), { m with CurrentDir := goTrimSpace r.stdout }) := by
  have htgt : cdTarget "cd" = "/home/player" := by decide
  refine ⟨htgt, ?_⟩
  have hcond : (goStartsWith (goTrimSpace "cd") "cd "
                || goTrimSpace "cd" == "cd") = true := by decide
  have heq := executeCommand_cd_eq m exec "cd" hcond
  rw [htgt, hr] at heq
  rw [heq]
  simp only [hs, if_true]
  simp [hne]

/-- Witness for C10: bare `cd` with a probe printing `/home/player`
re-tracks the home directory. -/
theorem executeCommand_bare_cd_witness :
    ExecuteCommand mgr0 (fun _ => ⟨"/home/player\n", "", true, ""⟩) "cd"
      = (("", none), { mgr0 with CurrentDir := "/home/player" }) := by
  have h := executeCommand_bare_cd mgr0
      (fun _ => ⟨"/home/player\n", "", true, ""⟩)
      ⟨"/home/player\n", "", true, ""⟩ rfl rfl (by decide)
  exact h.2.trans (by decide)

/-- The model with only the tracked working directory replaced. -/
def withCurrentDir (m : Model) (d : String) : Model :=
  { m with manager := { m.manager with CurrentDir := d } }

/-- Claim C2: For every quest whose win-condition kind is not
CurrentDirMatches, UserOutputMatches or UserOutputContains, the evaluation
verdict is independent of the tracked working directory: two evaluations
differing only in the Session's `currentWorkingDirectory` (same container
probe oracle, same last user output) produce the same verdict — all
container probes run with the working directory pinned to the player's
home. -/
theorem winCondition_independent_of_currentDir (m : Model) (exec : Exec)
    (d1 d2 : String)
    (h : (getQuest m.quests m.currentQuestIdx).WinCondition.type
            ≠ WinConditionType.CurrentDirMatch
         ∧ (getQuest m.quests m.currentQuestIdx).WinCondition.type
            ≠ WinConditionType.UserOutputMatch
         ∧ (getQuest m.quests m.currentQuestIdx).WinCondition.type
            ≠ WinConditionType.UserOutputContains) :
    checkWinCondition (withCurrentDir m d1) exec
      = checkWinCondition (withCurrentDir m d2) exec := by
  obtain ⟨h1, h2, h3⟩ := h
  cases htype : (getQuest m.quests m.currentQuestIdx).WinCondition.type <;>
    first
      | exact absurd htype h1
      | exact absurd htype h2
      | exact absurd htype h3
      | (simp [checkWinCondition, withCurrentDir, getQuest, ExecuteValidation,
               htype] at htype ⊢
         simp [htype])

/-- Witness for C2: a DirExists quest evaluates identically from `/a` and
from `/b`. -/
theorem winCondition_independent_of_currentDir_witness :
    (getQuest [⟨1, "Shelter", "", "", ⟨WinConditionType.DirExists, "hut", "", "", ""⟩,
       "", 10, []⟩] 0).WinCondition.type ≠ WinConditionType.CurrentDirMatch ∧
    checkWinCondition
        (withCurrentDir ⟨[⟨1, "Shelter", "", "",
            ⟨WinConditionType.DirExists, "hut", "", "", ""⟩, "", 10, []⟩],
          mgr0, 0, "", [], "", none⟩ "/a") (fun _ => ⟨"yes\n", "", true, ""⟩)
      = checkWinCondition
        (withCurrentDir ⟨[⟨1, "Shelter", "", "",
            ⟨WinConditionType.DirExists, "hut", "", "", ""⟩, "", 10, []⟩],
          mgr0, 0, "", [], "", none⟩ "/b") (fun _ => ⟨"yes\n", "", true, ""⟩) := by
  refine ⟨by decide, ?_⟩
  exact winCondition_independent_of_currentDir _ _ "/a" "/b"
    ⟨by decide, by decide, by decide⟩

/-- A quest whose CommandOutputMatches probe can fail while still printing
the expected output (fixture for C3). -/
def questCommandOut : Quest :=
  ⟨7, "Permissions", "", "",
   ⟨WinConditionType.CommandOut, "", "", "stat -c %a hut", "700"⟩, "", 10, []⟩

/-- Probe oracle for C3: the validation probe exits nonzero (fails to
execute cleanly) yet its captured stdout trims to the expected `700`. -/
def failingProbeOracle : Exec := fun args =>
  if args = ["exec", "-w", "/home/player", "goblin-game", "bash", "-c",
             "stat -c %a hut"]
  then ⟨"700\n", "", false, "exit status 1"⟩
  else ⟨"", "", false, "unknown"⟩

/-- Model fixture for C3. -/
def modelCommandOut : Model := ⟨[questCommandOut], mgr0, 0, "", [], "", none⟩

/-- Counterexample to C3 as stated: a CommandOutputMatches probe that
itself fails to execute (nonzero exit) but whose captured stdout equals the
expectation yields verdict TRUE — the evaluator does not treat every probe
failure as "condition not satisfied (verdict false)"; only the no-error
part of the claim holds. -/
theorem probe_failure_not_always_false :
    (failingProbeOracle ["exec", "-w", "/home/player", "goblin-game", "bash",
        "-c", "stat -c %a hut"]).success = false ∧
    checkWinCondition modelCommandOut failingProbeOracle = some ⟨0, true⟩ := by
  exact ⟨by decide, by decide⟩

/-- Claim C3, amended: A win-condition validation probe never propagates an
execution error: `ExecuteValidation` returns a nil error on every probe
outcome, and whenever a quest is current the evaluator always produces a
boolean verdict (never an evaluator error). The verdict is computed from
the captured stdout alone, so a failed probe is indistinguishable from an
unsatisfied condition — which for the `&& echo yes`-guarded probes means
verdict false, while for CommandOutputMatches a failed probe whose captured
output equals the expectation still passes. -/
theorem validation_never_propagates_errors :
    (∀ (mgr : Manager) (exec : Exec) (c : String),
        (ExecuteValidation mgr exec c).2 = none) ∧
    (∀ (m : Model) (exec : Exec), m.currentQuestIdx < (m.quests.length : Int) →
        ∃ b : Bool, checkWinCondition m exec = some ⟨m.currentQuestIdx, b⟩) := by
  constructor
  · intro mgr exec c
    rfl
  · intro m exec hlt
    simp only [checkWinCondition]
    rw [if_neg (by omega)]
    exact ⟨_, rfl⟩

/-- Witness for C3 (amended): the failing-probe fixture still yields a
boolean verdict. -/
theorem validation_never_propagates_errors_witness :
    modelCommandOut.currentQuestIdx < (modelCommandOut.quests.length : Int) ∧
    ∃ b : Bool, checkWinCondition modelCommandOut failingProbeOracle
      = some ⟨modelCommandOut.currentQuestIdx, b⟩ := by
  exact ⟨by decide,
    validation_never_propagates_errors.2 modelCommandOut failingProbeOracle
      (by decide)⟩

/-- A single-quest list (fixture for C4). -/
def questDirHut : Quest :=
  ⟨1, "Shelter", "intro", "Make a hut",
   ⟨WinConditionType.DirExists, "hut", "", "", ""⟩, "well done", 10, []⟩

/-- Model at the first (and only) quest (fixture for C4). -/
def modelOneQuest : Model := ⟨[questDirHut], mgr0, 0, "", [], "", none⟩

/-- Counterexample to C4 as stated: after the only quest passes, the cursor
advances to 1 and 1 is persisted; resuming from the persisted cursor,
`NewModel` clamps `startQuestID ≥ len(quests)` back to `len - 1`, so the
resumed cursor is 0 — smaller than the persisted 1 — and the already
retired quest 0 is current (hence re-evaluated) again. The cursor is
therefore not monotonic across resumes. -/
theorem quest_cursor_resume_clamp :
    (updateQuestCheck modelOneQuest ⟨0, true⟩).currentQuestIdx = 1 ∧
    (updateQuestCheck modelOneQuest ⟨0, true⟩).savedQuestId = some 1 ∧
    (NewModel [questDirHut] mgr0 1).currentQuestIdx = 0 := by
  exact ⟨by decide, by decide, by decide⟩

/-- Claim C4, amended: Within a run the quest cursor is monotone: a
transition on a verdict for the current quest leaves the model unchanged
when the verdict is false and increments the cursor by exactly one
(persisting the incremented value) when it is true; every evaluation the
state machine dispatches targets the quest at the current cursor, so a
retired quest is not re-evaluated within a run. Across resumes the cursor
is preserved exactly when the persisted value is inside the quest-list
range; a persisted cursor past the last quest (all quests completed) is
clamped back to the last quest, which is then re-presented. -/
theorem quest_cursor_monotone :
    (∀ (m : Model) (msg : QuestCheckMsg), msg.idx = m.currentQuestIdx →
       (msg.passed = false → updateQuestCheck m msg = m) ∧
       (msg.passed = true →
          (updateQuestCheck m msg).currentQuestIdx = m.currentQuestIdx + 1 ∧
          (updateQuestCheck m msg).savedQuestId = some (m.currentQuestIdx + 1))) ∧
    (∀ (m : Model) (exec : Exec) (msg : QuestCheckMsg),
       checkWinCondition m exec = some msg → msg.idx = m.currentQuestIdx) ∧
    (∀ (qs : List Quest) (mgr : Manager) (s : Int),
       0 ≤ s → s < (qs.length : Int) →
       (NewModel qs mgr s).currentQuestIdx = s) := by
  refine ⟨?_, ?_, ?_⟩
  · intro m msg hidx
    constructor
    · intro hfail
      simp [updateQuestCheck, hfail]
    · intro hpass
      simp only [updateQuestCheck, hpass, hidx, if_true]
      constructor
      · split
        · rfl
        · rfl
      · split
        · rfl
        · rfl
  · intro m exec msg h
    rw [checkWinCondition] at h
    split at h
    · exact absurd h (by simp)
    · cases h
      rfl
  · intro qs mgr s h0 hlen
    rw [NewModel]
    simp only
    rw [if_neg (by omega), if_neg (by omega)]

/-- Witness for C4 (amended): a passing verdict at the current cursor
advances it by one, and an in-range resume preserves the cursor. -/
theorem quest_cursor_monotone_witness :
    (⟨0, true⟩ : QuestCheckMsg).idx = modelOneQuest.currentQuestIdx ∧
    (updateQuestCheck modelOneQuest ⟨0, true⟩).currentQuestIdx
      = modelOneQuest.currentQuestIdx + 1 ∧
    (NewModel [questDirHut] mgr0 0).currentQuestIdx = 0 := by
  refine ⟨rfl, ?_, ?_⟩
  · exact ((quest_cursor_monotone.1 modelOneQuest ⟨0, true⟩ rfl).2 rfl).1
  · exact quest_cursor_monotone.2.2 [questDirHut] mgr0 0 (by decide) (by decide)

/-- Model with a previous successful command's output recorded (fixture
for C7). -/
def modelStaleOutput : Model := ⟨[questDirHut], mgr0, 0, "old output", [], "", none⟩

/-- Counterexample to C7 as stated: when the just-completed command FAILED,
the handler leaves `lastOutput` untouched, so the value the evaluator
compares against is the previous successful command's output
(`"old output"`), not the output of the command that just completed. -/
theorem failed_command_keeps_stale_lastOutput :
    (updateCommandResult modelStaleOutput ⟨"new", some "boom"⟩).lastOutput
      = "old output" ∧
    ("old output" : String) ≠ "new" := by
  exact ⟨rfl, by decide⟩

/-- Claim C7, amended: After every user command completes — success or
failure — the handler dispatches the evaluator on the updated model, whose
quest cursor is unchanged, so the evaluator sees the quest at the current
index; on success `lastOutput` becomes the command's captured output (the
trailing empty line is dropped only for transcript display), while on
failure `lastOutput` keeps its previous value, the output of the last
successful command. -/
theorem commandResult_invokes_evaluator :
    (∀ (m : Model) (msg : CommandResultMsg) (exec : Exec),
       (commandResultStep m msg exec).2
          = checkWinCondition (updateCommandResult m msg) exec ∧
       (updateCommandResult m msg).currentQuestIdx = m.currentQuestIdx ∧
       (updateCommandResult m msg).quests = m.quests) ∧
    (∀ (m : Model) (msg : CommandResultMsg), msg.err = none →
       (updateCommandResult m msg).lastOutput = msg.output) ∧
    (∀ (m : Model) (msg : CommandResultMsg) (e : String), msg.err = some e →
       (updateCommandResult m msg).lastOutput = m.lastOutput) := by
  refine ⟨?_, ?_, ?_⟩
  · intro m msg exec
    refine ⟨rfl, ?_, ?_⟩ <;>
      (cases hmsg : msg.err
       all_goals simp [updateCommandResult, hmsg])
  · intro m msg h
    simp [updateCommandResult, h]
  · intro m msg e h
    simp [updateCommandResult, h]

/-- Witness for C7 (amended): a successful completion records its output as
`lastOutput`; a failed completion keeps the stale one. -/
theorem commandResult_invokes_evaluator_witness :
    ((⟨"out\n", none⟩ : CommandResultMsg).err = none ∧
     (updateCommandResult modelStaleOutput ⟨"out\n", none⟩).lastOutput = "out\n") ∧
    ((⟨"", some "boom"⟩ : CommandResultMsg).err = some "boom" ∧
     (updateCommandResult modelStaleOutput ⟨"", some "boom"⟩).lastOutput
        = modelStaleOutput.lastOutput) := by
  exact ⟨⟨rfl, commandResult_invokes_evaluator.2.1 modelStaleOutput
            ⟨"out\n", none⟩ rfl⟩,
         ⟨rfl, commandResult_invokes_evaluator.2.2 modelStaleOutput
            ⟨"", some "boom"⟩ "boom" rfl⟩⟩

/-- CurrentDirMatches quest whose target carries two trailing separators
(fixture for C8). -/
def questCdDouble : Quest :=
  ⟨3, "Navigate", "", "",
   ⟨WinConditionType.CurrentDirMatch, "hut//", "", "", ""⟩, "", 10, []⟩

/-- Model tracked at `/home/player/hut` with the double-slash quest current
(fixture for C8). -/
def modelCdDouble : Model :=
  ⟨[questCdDouble], { mgr0 with CurrentDir := "/home/player/hut" }, 0, "", [], "", none⟩

/-- Counterexample to C8 as stated: target `hut//` normalizes to
`/home/player/hut//`; with ALL trailing separators stripped (the claim's
wording) it equals the tracked `/home/player/hut`, so the claim predicts a
pass — but the code strips only ONE separator
(`strings.TrimSuffix(dir, "/")`), compares `/home/player/hut/` against
`/home/player/hut`, and fails. -/
theorem currentDirMatch_double_slash :
    specCurrentDirMatches "hut//" "/home/player/hut" = true ∧
    checkWinCondition modelCdDouble (fun _ => ⟨"", "", true, ""⟩)
      = some ⟨0, false⟩ := by
  exact ⟨by decide, by decide⟩

/-- Claim C8, amended: Evaluation of a CurrentDirMatches condition performs
no container probe (the verdict does not depend on the probe oracle) and
passes iff the tracked working directory with AT MOST ONE trailing
separator stripped equals the target normalized to an absolute path (a name
not starting with `/` is prefixed with `/home/player/`) with at most one
trailing separator stripped. -/
theorem currentDirMatch_comparison (m : Model)
    (h : (getQuest m.quests m.currentQuestIdx).WinCondition.type
          = WinConditionType.CurrentDirMatch)
    (hlt : m.currentQuestIdx < (m.quests.length : Int)) :
    ∀ exec1 exec2 : Exec,
      checkWinCondition m exec1 = checkWinCondition m exec2 ∧
      checkWinCondition m exec1 = some ⟨m.currentQuestIdx,
        goTrimSuffixSlash m.manager.CurrentDir ==
          goTrimSuffixSlash
            (if ¬ goStartsWith (getQuest m.quests m.currentQuestIdx).WinCondition.Target "/"
             then "/home/player/" ++ (getQuest m.quests m.currentQuestIdx).WinCondition.Target
             else (getQuest m.quests m.currentQuestIdx).WinCondition.Target)⟩ := by
  have key : ∀ exec : Exec, checkWinCondition m exec = some ⟨m.currentQuestIdx,
      goTrimSuffixSlash m.manager.CurrentDir ==
        goTrimSuffixSlash
          (if ¬ goStartsWith (getQuest m.quests m.currentQuestIdx).WinCondition.Target "/"
           then "/home/player/" ++ (getQuest m.quests m.currentQuestIdx).WinCondition.Target
           else (getQuest m.quests m.currentQuestIdx).WinCondition.Target)⟩ := by
    intro exec
    rw [checkWinCondition, if_neg (by omega)]
    simp only [h]
  exact fun e1 e2 => ⟨(key e1).trans (key e2).symm, key e1⟩

/-- Witness for C8 (amended): the double-slash fixture evaluates
identically under two different probe oracles, with the comparison as
stated. -/
theorem currentDirMatch_comparison_witness :
    (getQuest modelCdDouble.quests modelCdDouble.currentQuestIdx).WinCondition.type
      = WinConditionType.CurrentDirMatch ∧
    checkWinCondition modelCdDouble (fun _ => ⟨"", "", true, ""⟩)
      = checkWinCondition modelCdDouble (fun _ => ⟨"yes\n", "", true, ""⟩) := by
  refine ⟨by decide, ?_⟩
  exact (currentDirMatch_comparison modelCdDouble (by decide) (by decide)
    (fun _ => ⟨"", "", true, ""⟩) (fun _ => ⟨"yes\n", "", true, ""⟩)).1

/-- A container recreated after resume: the `glitch` user and its group
membership are gone (they are not under the bind-mounted home), while the
volume-persisted `.safe_house` directory survives with stale owner and
permissions (fixture for C5 and C6). -/
def freshContainer : ContainerState := ⟨false, false, true, "player", "755"⟩

/-- Literal evaluation shared by the reconciliation proofs: the `groups`
output of a sudoer contains `sudo`. -/
theorem goContains_groups_sudo :
    goContains "glitch : glitch sudo\n" "sudo" = true := by decide

/-- Literal evaluation: the `groups` output of a non-sudoer does not
contain `sudo`. -/
theorem goContains_groups_nosudo :
    goContains "glitch : glitch\n" "sudo" = false := by decide

/-- An empty probe output does not contain `sudo`. -/
theorem goContains_empty_sudo : goContains "" "sudo" = false := by decide

/-- Counterexample to C5 as stated: resuming at `currentQuestId = 12`
against a recreated container, reconciliation issues the quest-10 user
restore and the quest-11 `chown`, but the quest-12 rule is guarded by
`questID > 12`, so NO `chmod 700 /home/player/.safe_house` is issued and
the permission effect stays unrestored (still `755`). -/
theorem restore_at_12_no_chmod :
    (RestoreEnvironment containerExec mgr0 12 freshContainer).2.1
      = ["id glitch", "useradd glitch", "chown glitch /home/player/.safe_house"] ∧
    (RestoreEnvironment containerExec mgr0 12 freshContainer).2.2.safeHousePerm
      = "755" := by
  exact ⟨by decide, by decide⟩

/-- Claim C5, amended: On resume with persisted `currentQuestId = 12`,
reconciliation verifies and if needed reapplies the quest-10 user creation
and the quest-11 ownership change, in the rule table's order, before quest
12 is shown; the quest-12 permission change is reapplied only when the
persisted cursor exceeds 12 (i.e. quest 12 itself was already
completed). -/
theorem restore_at_12_rules (s : ContainerState) :
    ((RestoreEnvironment containerExec mgr0 12 s).2.1 =
      (if s.glitchExists then ["id glitch"] else ["id glitch", "useradd glitch"])
        ++ ["chown glitch /home/player/.safe_house"]) ∧
    ((RestoreEnvironment containerExec mgr0 12 s).2.2.glitchExists = true) ∧
    ((RestoreEnvironment containerExec mgr0 12 s).2.2.safeHouseOwner
        = (if s.safeHouseExists then "glitch" else s.safeHouseOwner)) ∧
    ((RestoreEnvironment containerExec mgr0 12 s).2.2.safeHousePerm
        = s.safeHousePerm) ∧
    ("chmod 700 /home/player/.safe_house"
        ∉ (RestoreEnvironment containerExec mgr0 12 s).2.1) ∧
    ("chmod 700 /home/player/.safe_house"
        ∈ (RestoreEnvironment containerExec mgr0 13 s).2.1) := by
  obtain ⟨g, gs, sh, ow, pm⟩ := s
  cases g <;> cases sh <;>
    simp [RestoreEnvironment, containerExec, runRootCmd, runValidationCmd,
          RunAsRootS, ExecuteValidationS, mgr0]

/-- Counterexample to C6 as stated: the `test -d` guards before the
`chown`/`chmod` fixes are vacuous (`ExecuteValidation` never returns an
error), so a second reconciliation run against an unchanged, already
reconciled container re-issues the `chown` fix — a duplicate side-effecting
command. -/
theorem restore_second_run_repeats_chown :
    "chown glitch /home/player/.safe_house"
      ∈ (RestoreEnvironment containerExec mgr0 12 freshContainer).2.1 ∧
    "chown glitch /home/player/.safe_house"
      ∈ (RestoreEnvironment containerExec mgr0 12
          (RestoreEnvironment containerExec mgr0 12 freshContainer).2.2).2.1 := by
  exact ⟨by decide, by decide⟩

/-- Claim C6, amended: Reconciliation is idempotent on the container state
and on its error result: for every quest cursor and every starting
container state, a second run against the unchanged container leaves the
state exactly as after the first run, never returns an error, and never
re-attempts the guarded fixes (`useradd`, `usermod`) whose effects the
first run established; however the unconditionally re-issued `chown`/
`chmod` fixes are repeated (they are idempotent commands, so the state
still does not change). -/
theorem restore_idempotent (s : ContainerState) (q : Int) :
    ((RestoreEnvironment containerExec mgr0 q
        (RestoreEnvironment containerExec mgr0 q s).2.2).2.2
      = (RestoreEnvironment containerExec mgr0 q s).2.2) ∧
    ((RestoreEnvironment containerExec mgr0 q
        (RestoreEnvironment containerExec mgr0 q s).2.2).1 = none) ∧
    ("useradd glitch" ∉ (RestoreEnvironment containerExec mgr0 q
        (RestoreEnvironment containerExec mgr0 q s).2.2).2.1) ∧
    ("usermod -aG sudo glitch" ∉ (RestoreEnvironment containerExec mgr0 q
        (RestoreEnvironment containerExec mgr0 q s).2.2).2.1) := by
  obtain ⟨g, gs, sh, ow, pm⟩ := s
  by_cases h10 : q > 10 <;> by_cases h16 : q > 16 <;>
    by_cases h11 : q > 11 <;> by_cases h12 : q > 12 <;>
    first
      | omega
      | (cases g <;> cases gs <;> cases sh <;>
          simp [RestoreEnvironment, containerExec, runRootCmd, runValidationCmd,
                RunAsRootS, ExecuteValidationS, mgr0, h10, h16, h11, h12,
                goContains_groups_sudo, goContains_groups_nosudo,
                goContains_empty_sudo])

end GoblinTerminal
